import Mathlib

/-!
Verification development for the Suraksha-Yatra AI service
(`ai-service/ml_models/risk_predictor.py`, `anomaly_detector.py`,
`pattern_analyzer.py`).

Modelling conventions:
* Numeric values computed by closed-form arithmetic in the Python source are
  modelled exactly over `ℚ` (every IEEE float literal is a rational); values
  whose computation involves `sqrt` or trigonometry (`np.std`, bearings) are
  modelled over `ℝ`.
* Calls into external libraries that are opaque to this repository are
  modelled as parameters: `geopy.distance.geodesic(..).kilometers` becomes an
  arbitrary function argument `gdist : Coord → Coord → ℚ` (a float-valued
  black box; theorems that need it assume only nonnegativity), the trained
  `sklearn` regressor's output becomes an `Option ℚ` argument, and the
  `sklearn` DBSCAN labelling becomes a `List ℤ` argument aligned with the
  incident list.
* Python dictionaries holding a fixed set of keys are modelled as structures;
  per-key count dictionaries are modelled extensionally as functions
  `String → ℕ`.
-/

namespace SurakshaAI

/-- A `(latitude, longitude)` coordinate pair, as passed around by the
service (`start_coords`, `end_coords`, `current_location`, ...). -/
abbrev Coord : Type := ℚ × ℚ

/-- `RiskPredictor.get_risk_level` (risk_predictor.py lines 181-190):
threshold mapping from a risk score to a level string. -/
def get_risk_level (risk_score : ℚ) : String :=
  if 0.8 ≤ risk_score then "critical"
  else if 0.6 ≤ risk_score then "high"
  else if 0.4 ≤ risk_score then "medium"
  else "low"

/-- `RiskPredictor._get_time_risk_multiplier` (risk_predictor.py lines
450-457).  `hour` is `datetime.now().hour`, a value in `0..23`. -/
def get_time_risk_multiplier (hour : ℕ) : ℚ :=
  if 22 ≤ hour ∨ hour ≤ 5 then 1.3
  else if (6 ≤ hour ∧ hour ≤ 8) ∨ (17 ≤ hour ∧ hour ≤ 19) then 1.1
  else 1.0

/-- `RiskPredictor._calculate_default_risk` (risk_predictor.py lines
399-409): the deterministic heuristic used when no trained model is loaded.
`gdist` models the external `geodesic(..).kilometers` call. -/
def calculate_default_risk (gdist : Coord → Coord → ℚ)
    (start_coords end_coords : Coord) (hour : ℕ) : ℚ :=
  let distance := gdist start_coords end_coords
  let distance_risk := min (distance / 100) 0.3
  let time_risk := get_time_risk_multiplier hour * 0.3
  let base_risk : ℚ := 0.4
  min (distance_risk + time_risk + base_risk) 1.0

/-- `RiskPredictor.predict_route_risk` (risk_predictor.py lines 99-130).
`model_output = none` models `self.model is None` (no trained regressor);
`model_output = some r` models the raw `self.model.predict(..)[0]` value of
the external sklearn artifact, which the code clamps to `[0, 1]`. -/
def predict_route_risk (gdist : Coord → Coord → ℚ) (model_output : Option ℚ)
    (start_coords end_coords : Coord) (hour : ℕ) : ℚ :=
  match model_output with
  | none => calculate_default_risk gdist start_coords end_coords hour
  | some raw => max 0 (min 1 raw)

/-- The fixed severity-weight lookup `{'critical': 1.0, 'high': 0.8,
'medium': 0.5, 'low': 0.2}` with dictionary default `0.5`, as used in
`predict_area_risk` (risk_predictor.py line 142) and in
`PatternAnalyzer._identify_hotspots` (pattern_analyzer.py line 287). -/
def severity_weight (severity : String) : ℚ :=
  if severity = "critical" then 1.0
  else if severity = "high" then 0.8
  else if severity = "medium" then 0.5
  else if severity = "low" then 0.2
  else 0.5

/-- Result of `predict_area_risk` (the fields the claims are about). -/
structure AreaRisk where
  risk_score : ℚ
  risk_level : String

/-- `RiskPredictor.predict_area_risk` (risk_predictor.py lines 132-170).
`severity_distribution` is the severity histogram returned by the database
layer (`area_stats['severity_distribution']`), `radius` is in metres and
`hour` is `datetime.now().hour`.  Note: in the Python source a zero radius
would raise `ZeroDivisionError` (caught, returning the `0.5` fallback);
over `ℚ` division by zero yields `0`, so the formula below is the faithful
model for `radius ≠ 0`. -/
def predict_area_risk (severity_distribution : List (String × ℕ))
    (radius : ℚ) (hour : ℕ) : AreaRisk :=
  let weighted_incidents : ℚ :=
    (severity_distribution.map (fun p => severity_weight p.1 * (p.2 : ℚ))).sum
  let area_km2 : ℚ := (radius / 1000) ^ 2 * 3.14159
  let risk_density := weighted_incidents / (area_km2 * 30)
  let base_risk := min (risk_density / 0.1) 1.0
  let time_multiplier := get_time_risk_multiplier hour
  let final_risk := min (base_risk * time_multiplier) 1.0
  { risk_score := final_risk, risk_level := get_risk_level final_risk }

/-- A location record as stored by the mongo layer and consumed by
`AnomalyDetector`: GeoJSON coordinates (`coordinates[1]` = latitude,
`coordinates[0]` = longitude), an optional `createdAt` timestamp (modelled
as rational seconds since the epoch) and an optional instantaneous `speed`
in m/s. -/
structure LocationSample where
  lat : ℚ
  lng : ℚ
  createdAt : Option ℚ
  speed : Option ℚ

/-- The fields of the dictionaries returned by the `AnomalyDetector`
entry points that the specification constrains (`is_anomaly`,
`confidence`, `reason`); purely numeric diagnostic fields (`z_score`,
`current_speed_kmh`, `timestamp`, ...) are not modelled. -/
structure AnomalyResult where
  is_anomaly : Bool
  confidence : ℝ
  reason : String

/-- `np.mean` over an exact rational list (the empty-list case, `nan` in
numpy, is junk-valued `0` here; every use in the source is guarded by a
nonemptiness check). -/
def npMean (l : List ℚ) : ℚ := l.sum / l.length

/-- `np.var` (population variance), exactly over `ℚ`. -/
def npVar (l : List ℚ) : ℚ :=
  ((l.map (fun x => (x - npMean l) ^ 2)).sum) / l.length

/-- `np.std l = Real.sqrt (np.var l)`; irrational in general, hence `ℝ`. -/
noncomputable def npStd (l : List ℚ) : ℝ := Real.sqrt (npVar l)

/-- Python `max` over a nonempty list (junk `0` on `[]`; all uses in the
source are guarded). -/
def pyMax (l : List ℚ) : ℚ :=
  match l with
  | [] => 0
  | x :: xs => xs.foldl max x

/-- `np.percentile l q` with the default linear interpolation method:
sort ascending, let `h = (n-1)·q/100`, and interpolate between the
elements at positions `⌊h⌋` and `⌈h⌉`. -/
def npPercentile (l : List ℚ) (q : ℚ) : ℚ :=
  let s := l.insertionSort (· ≤ ·)
  let h : ℚ := ((s.length : ℚ) - 1) * q / 100
  let lo : ℕ := (⌊h⌋).toNat
  let hi : ℕ := (⌈h⌉).toNat
  let a := s.getD lo 0
  let b := s.getD hi 0
  a + (h - (lo : ℚ)) * (b - a)

/-- The historical speed extraction of `detect_speed_anomaly`
(anomaly_detector.py lines 107-111): keep samples whose `speed` is not
`None` and convert m/s to km/h. -/
def historical_speeds_kmh (historical_locations : List LocationSample) : List ℚ :=
  historical_locations.filterMap (fun loc => loc.speed.map (· * 3.6))

/-- `AnomalyDetector._detect_general_speed_anomaly` (anomaly_detector.py
lines 458-491), the fixed-threshold fallback.  `current_speed` is in m/s
(`current_speed * 3.6 if current_speed else 0` agrees with plain
multiplication on rationals since `0 * 3.6 = 0`); `expected_movement`
models `context and context.get('expected_movement', False)`.  The
formatted speed values interpolated into the reason strings are not
reproduced digit-for-digit (no claim depends on them). -/
def detect_general_speed_anomaly (current_speed : ℚ)
    (expected_movement : Bool) : AnomalyResult :=
  let current_speed_kmh := current_speed * 3.6
  if 200 < current_speed_kmh then
    { is_anomaly := true, confidence := 0.9, reason := "Extremely high speed" }
  else if 120 < current_speed_kmh then
    { is_anomaly := true, confidence := 0.7, reason := "Very high speed" }
  else if current_speed_kmh < 1 ∧ expected_movement then
    { is_anomaly := true, confidence := 0.6, reason := "Unexpected stationary state" }
  else
    { is_anomaly := false, confidence := 0.0, reason := "Speed within general limits" }

/-- `AnomalyDetector.detect_speed_anomaly` (anomaly_detector.py lines
102-158).  The historical locations come from the database layer; with
fewer than 20 recorded speeds the fixed-threshold fallback is used,
otherwise the user-specific statistics.  (In the statistical branch the
confidence is `min (z/3) 1` when `z > 3`, `0.8` when a percentile
threshold fired, else `0`.) -/
noncomputable def detect_speed_anomaly (current_speed : ℚ)
    (historical_locations : List LocationSample)
    (expected_movement : Bool) : AnomalyResult :=
  let historical_speeds := historical_speeds_kmh historical_locations
  if historical_speeds.length < 20 then
    detect_general_speed_anomaly current_speed expected_movement
  else
    let mean_speed := npMean historical_speeds
    let std_speed : ℝ := npStd historical_speeds
    let percentile_95 := npPercentile historical_speeds 95
    let percentile_05 := npPercentile historical_speeds 5
    let current_speed_kmh := current_speed * 3.6
    let z_score : ℝ :=
      if 0 < std_speed then |(((current_speed_kmh - mean_speed : ℚ)) : ℝ)| / std_speed
      else 0
    let is_high_speed := percentile_95 * 1.5 < current_speed_kmh
    let is_very_low_speed := current_speed_kmh < percentile_05 * 0.5 ∧ 1 < current_speed_kmh
    let is_statistical_anomaly := (3 : ℝ) < z_score
    { is_anomaly := if is_high_speed ∨ is_very_low_speed ∨ is_statistical_anomaly
        then true else false,
      confidence :=
        if is_statistical_anomaly then min (z_score / 3) 1
        else if is_high_speed ∨ is_very_low_speed then 0.8
        else 0.0,
      reason :=
        if is_high_speed then "Speed significantly higher than usual"
        else if is_very_low_speed then "Speed unusually low"
        else if is_statistical_anomaly then "Speed statistically anomalous"
        else "Speed within normal range" }

/-- The eight movement features computed by
`AnomalyDetector._extract_movement_features` (anomaly_detector.py lines
293-344).  All values are numeric; `num_stops` and `direction_changes`
are integer counts stored as rationals. -/
structure MovementFeatures where
  avg_speed : ℚ
  max_speed : ℚ
  speed_variance : ℚ
  total_distance : ℚ
  avg_time_interval : ℚ
  max_time_gap : ℚ
  num_stops : ℚ
  direction_changes : ℚ

/-- `AnomalyDetector._calculate_bearing` (anomaly_detector.py lines
375-389): forward azimuth in degrees in `[0, 360)`.  `np.arctan2 y x` is
`Complex.arg (x + y*I)`; the final `(bearing + 360) % 360` is the
floor-based Python float modulus. -/
noncomputable def calculate_bearing (p1 p2 : LocationSample) : ℝ :=
  let lat1 : ℝ := Real.pi / 180 * (p1.lat : ℝ)
  let lon1 : ℝ := Real.pi / 180 * (p1.lng : ℝ)
  let lat2 : ℝ := Real.pi / 180 * (p2.lat : ℝ)
  let lon2 : ℝ := Real.pi / 180 * (p2.lng : ℝ)
  let dlon := lon2 - lon1
  let y := Real.sin dlon * Real.cos lat2
  let x := Real.cos lat1 * Real.sin lat2 - Real.sin lat1 * Real.cos lat2 * Real.cos dlon
  let bearing := (180 / Real.pi) * Complex.arg ⟨x, y⟩
  (bearing + 360) - 360 * ⌊(bearing + 360) / 360⌋

open Classical in
/-- `AnomalyDetector._count_direction_changes` (anomaly_detector.py lines
346-373): count consecutive bearing changes whose wrapped absolute
difference exceeds 45 degrees. -/
noncomputable def count_direction_changes (locations : List LocationSample) : ℕ :=
  if locations.length < 3 then 0
  else
    (locations.zip (locations.tail.zip locations.tail.tail)).countP (fun t =>
      let bearing1 := calculate_bearing t.1 t.2.1
      let bearing2 := calculate_bearing t.2.1 t.2.2
      let angle_diff := |bearing2 - bearing1|
      let angle_diff := if 180 < angle_diff then 360 - angle_diff else angle_diff
      decide (45 < angle_diff))

/-- The consecutive pairs `(locations[i-1], locations[i])` iterated by the
feature-extraction loop. -/
def consecutive_pairs (locations : List LocationSample) :
    List (LocationSample × LocationSample) :=
  locations.zip locations.tail

/-- Distance leg of the loop body: the external
`geodesic(prev, curr).kilometers` call on the two samples. -/
def pair_distance (gdist : Coord → Coord → ℚ)
    (p : LocationSample × LocationSample) : ℚ :=
  gdist (p.1.lat, p.1.lng) (p.2.lat, p.2.lng)

/-- Time leg of the loop body:
`(curr_time - prev_time).total_seconds()`, where a missing `createdAt`
defaults to `datetime.utcnow()` — the wall-clock instant `now`. -/
def pair_time_diff (now : ℚ) (p : LocationSample × LocationSample) : ℚ :=
  p.2.createdAt.getD now - p.1.createdAt.getD now

/-- `AnomalyDetector._extract_movement_features` (anomaly_detector.py lines
293-344).  Returns `none` for the `len(locations) < 2` empty-dictionary
case.  `now` is the `datetime.utcnow()` default substituted for missing
`createdAt` fields. -/
noncomputable def extract_movement_features (gdist : Coord → Coord → ℚ)
    (now : ℚ) (locations : List LocationSample) : Option MovementFeatures :=
  if locations.length < 2 then none
  else
    let pairs := consecutive_pairs locations
    let distances := pairs.map (pair_distance gdist)
    let time_intervals := pairs.map (pair_time_diff now)
    let speeds := pairs.filterMap (fun p =>
      let time_diff := pair_time_diff now p
      if 0 < time_diff then some (pair_distance gdist p * 1000 / time_diff)
      else none)
    some
      { avg_speed := if speeds.isEmpty then 0 else npMean speeds
        max_speed := if speeds.isEmpty then 0 else pyMax speeds
        speed_variance := if speeds.isEmpty then 0 else npVar speeds
        total_distance := distances.sum
        avg_time_interval := if time_intervals.isEmpty then 0 else npMean time_intervals
        max_time_gap := if time_intervals.isEmpty then 0 else pyMax time_intervals
        num_stops := (speeds.countP (fun s => decide (s < 0.1)) : ℚ)
        direction_changes := (count_direction_changes locations : ℚ) }

/-- The fixed iteration order of the feature dictionary (Python dicts
iterate in insertion order; `features.update` inserts all eight keys at
once), paired with the corresponding projections. -/
def feature_projections : List (String × (MovementFeatures → ℚ)) :=
  [("avg_speed", MovementFeatures.avg_speed),
   ("max_speed", MovementFeatures.max_speed),
   ("speed_variance", MovementFeatures.speed_variance),
   ("total_distance", MovementFeatures.total_distance),
   ("avg_time_interval", MovementFeatures.avg_time_interval),
   ("max_time_gap", MovementFeatures.max_time_gap),
   ("num_stops", MovementFeatures.num_stops),
   ("direction_changes", MovementFeatures.direction_changes)]

/-- The per-feature z-score computation shared by
`_calculate_movement_anomaly_score` and
`_determine_movement_anomaly_reason` (anomaly_detector.py lines 396-409 and
428-443): for each feature, take the historical values, and when there are
more than one of them and their standard deviation is positive, record
`|current - mean| / std`. -/
noncomputable def feature_z_scores (current : MovementFeatures)
    (historical : List MovementFeatures) : List (String × ℝ) :=
  feature_projections.filterMap (fun fp =>
    let historical_values := historical.map fp.2
    if 1 < historical_values.length then
      let std_val : ℝ := npStd historical_values
      if 0 < std_val then
        some (fp.1, |((fp.2 current - npMean historical_values : ℚ) : ℝ)| / std_val)
      else none
    else none)

/-- `AnomalyDetector._calculate_movement_anomaly_score` (anomaly_detector.py
lines 391-420).  A feature dictionary is either empty (`none`) or carries
all eight keys, so the `feature_name in historical_features[0]` gate either
admits every feature or none. -/
noncomputable def calculate_movement_anomaly_score
    (current_features : Option MovementFeatures)
    (historical_features : List (Option MovementFeatures)) : ℝ :=
  match historical_features with
  | [] => 0
  | h0 :: _ =>
    match current_features, h0 with
    | some c, some _ =>
      let z_scores := (feature_z_scores c (historical_features.filterMap id)).map (·.2)
      match z_scores with
      | [] => 0
      | z :: rest => min ((rest.foldl max z) / 3) 1
    | _, _ => 0

/-- The human label lookup of `_determine_movement_anomaly_reason`
(anomaly_detector.py lines 446-453). -/
def feature_description (name : String) : Option String :=
  if name = "avg_speed" then some "unusual average speed"
  else if name = "max_speed" then some "unusual maximum speed"
  else if name = "speed_variance" then some "unusual speed variation"
  else if name = "total_distance" then some "unusual travel distance"
  else if name = "direction_changes" then some "unusual movement pattern"
  else if name = "num_stops" then some "unusual number of stops"
  else none

open Classical in
/-- `AnomalyDetector._determine_movement_anomaly_reason` (anomaly_detector.py
lines 422-456): the label of the single most-anomalous feature (strictly
positive z-score required), with the generic fallback label for unmapped
features. -/
noncomputable def determine_movement_anomaly_reason
    (current_features : Option MovementFeatures)
    (historical_features : List (Option MovementFeatures)) : String :=
  match historical_features with
  | [] => "No historical patterns for comparison"
  | h0 :: _ =>
    match current_features, h0 with
    | some c, some _ =>
      let z_scores := feature_z_scores c (historical_features.filterMap id)
      let best := z_scores.foldl (fun acc p =>
        match acc with
        | none => if 0 < p.2 then some p else none
        | some q => if q.2 < p.2 then some p else acc) none
      match best with
      | some p => (feature_description p.1).getD ("unusual " ++ p.1)
      | none => "Movement pattern within normal range"
    | _, _ => "Movement pattern within normal range"

/-- The non-overlapping windowing of the historical samples performed by
`detect_movement_anomaly` (anomaly_detector.py lines 55-59):
`historical_patterns[i:i+L]` for `i in range(0, H-L+1, L)` (each slice has
exactly `L` elements since `i + L ≤ H`).  Empty when `H < L`; `L = 0`
would raise in Python and is junk-valued `[]` (every call has `L ≥ 3`). -/
def historical_windows (historical_patterns : List LocationSample)
    (window_len : ℕ) : List (List LocationSample) :=
  if window_len = 0 then []
  else if historical_patterns.length < window_len then []
  else
    (List.range ((historical_patterns.length - window_len) / window_len + 1)).map
      (fun k => (historical_patterns.drop (k * window_len)).take window_len)

open Classical in
/-- `AnomalyDetector.detect_movement_anomaly` (anomaly_detector.py lines
33-100).  `historical_patterns` models the samples returned by
`get_user_movement_patterns(user_id, days=30)`. -/
noncomputable def detect_movement_anomaly (gdist : Coord → Coord → ℚ)
    (now : ℚ) (locations historical_patterns : List LocationSample) :
    AnomalyResult :=
  if locations.length < 3 then
    { is_anomaly := false, confidence := 0.0, reason := "Insufficient location data" }
  else if historical_patterns.length < 10 then
    { is_anomaly := false, confidence := 0.0, reason := "Insufficient historical data" }
  else
    let current_features := extract_movement_features gdist now locations
    let historical_features :=
      (historical_windows historical_patterns locations.length).map
        (extract_movement_features gdist now)
    if historical_features.length < 5 then
      { is_anomaly := false, confidence := 0.0, reason := "Insufficient historical patterns" }
    else
      let anomaly_score := calculate_movement_anomaly_score current_features historical_features
      { is_anomaly := if 0.7 < anomaly_score then true else false
        confidence := anomaly_score
        reason := determine_movement_anomaly_reason current_features historical_features }

/-- A common route from the user profile
(`movement_stats.common_routes`): `start_location` is a GeoJSON
`[lng, lat]` pair, read back as `(route['start_location'][1],
route['start_location'][0])`. -/
structure CommonRoute where
  start_lng : ℚ
  start_lat : ℚ

/-- The result dictionary of `detect_location_deviation`.  The early
no-profile return in the source omits the `is_major_deviation` and
`distance_from_route_km` keys; they are defaulted to `false`/`0` here. -/
structure DeviationResult where
  is_deviation : Bool
  is_major_deviation : Bool
  confidence : ℚ
  reason : String
  distance_from_route_km : ℚ

/-- `AnomalyDetector.detect_location_deviation` (anomaly_detector.py lines
168-228).  The empty route list models the falsy
`common_routes` guard (missing profile or no routes).  The distance values
interpolated into the reason strings are not reproduced. -/
def detect_location_deviation (gdist : Coord → Coord → ℚ)
    (common_routes : List CommonRoute) (current_location : Coord) :
    DeviationResult :=
  match common_routes with
  | [] =>
    { is_deviation := false, is_major_deviation := false, confidence := 0.0,
      reason := "No established route patterns", distance_from_route_km := 0 }
  | r :: rs =>
    let distances := (r :: rs).map (fun route =>
      gdist current_location (route.start_lat, route.start_lng))
    let min_distance :=
      match distances with
      | [] => 0
      | d :: ds => ds.foldl min d
    let minor_deviation_km : ℚ := 2.0
    let major_deviation_km : ℚ := 5.0
    let is_deviation := minor_deviation_km < min_distance
    let is_major_deviation := major_deviation_km < min_distance
    let confidence := min (min_distance / major_deviation_km) 1.0
    { is_deviation := is_deviation
      is_major_deviation := is_major_deviation
      confidence := confidence
      reason :=
        if is_major_deviation then "Major route deviation"
        else if is_deviation then "Minor route deviation"
        else "Following established route patterns"
      distance_from_route_km := min_distance }

/-- The hour in `0..23` of a timestamp given as rational seconds since the
epoch: models `datetime.hour`. -/
def hour_of (t : ℚ) : ℤ := (⌊t / 3600⌋) % 24

open Classical in
/-- `AnomalyDetector.detect_time_pattern_anomaly` (anomaly_detector.py
lines 230-291).  `current_time` is the query instant; `now` is the
`datetime.utcnow()` default substituted for missing `createdAt` fields.
The z-score value interpolated into the anomalous reason string is not
reproduced. -/
noncomputable def detect_time_pattern_anomaly (gdist : Coord → Coord → ℚ)
    (now : ℚ) (current_time : ℚ) (current_location : Coord)
    (historical_locations : List LocationSample) : AnomalyResult :=
  let current_hour := hour_of current_time
  let similar_time_locations := historical_locations.filter (fun loc =>
    |hour_of (loc.createdAt.getD now) - current_hour| ≤ 2)
  if similar_time_locations.length < 5 then
    { is_anomaly := false, confidence := 0.0,
      reason := "Insufficient historical data for time comparison" }
  else
    let avg_lat := npMean (similar_time_locations.map (·.lat))
    let avg_lng := npMean (similar_time_locations.map (·.lng))
    let distance := gdist current_location (avg_lat, avg_lng)
    let distances_from_avg := similar_time_locations.map (fun loc =>
      gdist (loc.lat, loc.lng) (avg_lat, avg_lng))
    let std_distance : ℝ := npStd distances_from_avg
    let z_score : ℝ := if 0 < std_distance then (distance : ℝ) / std_distance else 0
    let is_anomaly := (5 / 2 : ℝ) < z_score
    let confidence : ℝ := min (z_score / 3) 1
    { is_anomaly := if is_anomaly then true else false
      confidence := confidence
      reason := if is_anomaly then "Location unusual for this time"
                else "Normal location for this time" }

/-- Python `int(..)` applied to a rational: truncation toward zero. -/
def trunc_int (q : ℚ) : ℤ := if 0 ≤ q then ⌊q⌋ else ⌈q⌉

/-- Rounding half-to-even to an integer (Python 3 `round` on exact
values). -/
def round_half_even (q : ℚ) : ℤ :=
  let f := ⌊q⌋
  if q - f < 1 / 2 then f
  else if 1 / 2 < q - f then f + 1
  else if 2 ∣ f then f else f + 1

/-- Python `round(x, 2)` on exact rationals. -/
def round2 (q : ℚ) : ℚ := (round_half_even (q * 100) : ℚ) / 100

/-- The slope `np.polyfit(x, y, 1)[0]` of the least-squares line through
`(0, y₀), (1, y₁), ...`, written in closed form via the normal equations:
`(n·Σxy − Σx·Σy) / (n·Σx² − (Σx)²)`.  Junk-valued `0` when the
denominator vanishes (fewer than two points; every call has `n ≥ 7`). -/
def linear_slope (counts : List ℚ) : ℚ :=
  let n := counts.length
  let xs : List ℚ := (List.range n).map (fun i => (i : ℚ))
  let sx := xs.sum
  let sy := counts.sum
  let sxy := ((xs.zip counts).map (fun p => p.1 * p.2)).sum
  let sxx := (xs.map (fun x => x ^ 2)).sum
  ((n : ℚ) * sxy - sx * sy) / ((n : ℚ) * sxx - sx ^ 2)

/-- The forecast dictionary returned by
`PatternAnalyzer._generate_predictions`. -/
structure Forecast where
  next_7_days : List ℤ
  trend_direction : String
  trend_strength : ℚ
  confidence : ℚ
  expected_total_next_week : ℤ

/-- The forecast confidence computation of `_generate_predictions`
(pattern_analyzer.py lines 352-354 and 360): volatility between the
most-recent 3-day average and the prior 4-day average, clamped to
`[0, 1]` and rounded to two decimals in the result. -/
def forecast_confidence (counts : List ℚ) : ℚ :=
  let n := counts.length
  let recent_trend := npMean (counts.drop (n - 3)) - npMean ((counts.drop (n - 7)).take 4)
  round2 (max 0 (min 1 (1 - |recent_trend| / max (npMean counts) 1)))

/-- `PatternAnalyzer._generate_predictions` (pattern_analyzer.py lines
323-362) from the per-day incident counts of the last 14 days onward
(`counts`, the upstream date-bucketing of lines 328-335 having produced
them); `none` models the `'Insufficient recent data'` error return for
fewer than 7 counts. -/
def generate_predictions (counts : List ℚ) : Option Forecast :=
  if counts.length < 7 then none
  else
    let trend := linear_slope counts
    let last_count := counts.getLastD 0
    let predictions := (List.range 7).map (fun i =>
      max 0 (trunc_int (last_count + trend * ((i : ℚ) + 1))))
    some
      { next_7_days := predictions
        trend_direction :=
          if 0.1 < trend then "increasing"
          else if trend < -0.1 then "decreasing"
          else "stable"
        trend_strength := |trend|
        confidence := forecast_confidence counts
        expected_total_next_week := predictions.sum }

/-- An incident record with a location, as consumed by
`_identify_hotspots` (records without coordinates are filtered out
upstream of the clustering and are not modelled). -/
structure Incident where
  lat : ℚ
  lng : ℚ
  severity : String
  itype : String

/-- A hotspot entry (pattern_analyzer.py lines 290-298).  The Python `id`
string is `f'hotspot_N'` for cluster label `N`; the label itself is kept
here.  `severity_count`/`type_count` model the count dictionaries
extensionally. -/
structure Hotspot where
  cluster_id : ℤ
  center_lat : ℚ
  center_lng : ℚ
  incident_count : ℕ
  risk_score : ℚ
  severity_count : String → ℕ
  type_count : String → ℕ
  radius_km : ℝ

/-- Rounding half-to-even to an integer over `ℝ`. -/
noncomputable def round_half_even_real (x : ℝ) : ℤ :=
  let f := ⌊x⌋
  if x - f < 1 / 2 then f
  else if 1 / 2 < x - f then f + 1
  else if 2 ∣ f then f else f + 1

/-- Python `round(x, 2)` over `ℝ`. -/
noncomputable def round2_real (x : ℝ) : ℝ := (round_half_even_real (x * 100) : ℝ) / 100

open Classical in
/-- `np.percentile` over real values (used for the cluster radius, whose
distances involve square roots). -/
noncomputable def npPercentileReal (l : List ℝ) (q : ℚ) : ℝ :=
  let s := l.insertionSort (· ≤ ·)
  let h : ℚ := ((s.length : ℚ) - 1) * q / 100
  let lo : ℕ := (⌊h⌋).toNat
  let hi : ℕ := (⌈h⌉).toNat
  let a := s.getD lo 0
  let b := s.getD hi 0
  a + ((h : ℝ) - (lo : ℝ)) * (b - a)

/-- `PatternAnalyzer._calculate_cluster_radius` (pattern_analyzer.py lines
309-321): 90th percentile of the Euclidean member-to-centroid distances in
degree space, converted to km with the fixed 111.32 factor and rounded to
two decimals. -/
noncomputable def calculate_cluster_radius (cluster_points : List (ℚ × ℚ)) : ℝ :=
  if cluster_points.length < 2 then 0
  else
    let center_lat := npMean (cluster_points.map (·.1))
    let center_lng := npMean (cluster_points.map (·.2))
    let distances := cluster_points.map (fun p =>
      Real.sqrt (((p.1 - center_lat : ℚ) : ℝ) ^ 2 + ((p.2 - center_lng : ℚ) : ℝ) ^ 2))
    round2_real (npPercentileReal distances 90 * 111.32)

/-- The hotspot entry built for one non-noise cluster label
(pattern_analyzer.py lines 268-298).  `labels` is the DBSCAN labelling of
the external sklearn call (`DBSCAN(eps=0.005, min_samples=5)`), aligned
positionally with `incidents`. -/
noncomputable def make_hotspot (labels : List ℤ) (incidents : List Incident)
    (cluster_id : ℤ) : Hotspot :=
  let cluster_incidents := ((labels.zip incidents).filter (fun p => p.1 = cluster_id)).map (·.2)
  let cluster_points := cluster_incidents.map (fun i => (i.lat, i.lng))
  let incident_count := cluster_incidents.length
  { cluster_id := cluster_id
    center_lat := npMean (cluster_points.map (·.1))
    center_lng := npMean (cluster_points.map (·.2))
    incident_count := incident_count
    risk_score := round2
      (((cluster_incidents.map (fun i => severity_weight i.severity)).sum) / incident_count)
    severity_count := fun s => (cluster_incidents.filter (fun i => i.severity = s)).length
    type_count := fun t => (cluster_incidents.filter (fun i => i.itype = t)).length
    radius_km := calculate_cluster_radius cluster_points }

/-- The descending-by-`risk_score` order used by
`hotspots.sort(key=lambda x: x['risk_score'], reverse=True)`. -/
def hotspot_ge (a b : Hotspot) : Prop := b.risk_score ≤ a.risk_score

instance : DecidableRel hotspot_ge := fun a b =>
  inferInstanceAs (Decidable (b.risk_score ≤ a.risk_score))

instance : IsTotal Hotspot hotspot_ge := ⟨fun a b => le_total b.risk_score a.risk_score⟩

instance : IsTrans Hotspot hotspot_ge := ⟨fun _ _ _ h1 h2 => le_trans h2 h1⟩

/-- The hotspot report assembled at pattern_analyzer.py lines 300-307. -/
structure HotspotReport where
  hotspots : List Hotspot
  total_hotspots : ℕ
  noise_points : ℕ

/-- The post-clustering body of `PatternAnalyzer._identify_hotspots`
(pattern_analyzer.py lines 264-307): one hotspot per distinct non-noise
label, sorted descending by risk score (Python `list.sort` is stable, as
is `List.insertionSort`), capped to the top 10; noise points (label `-1`)
are only counted. -/
noncomputable def identify_hotspots_core (labels : List ℤ)
    (incidents : List Incident) : HotspotReport :=
  let cluster_ids := (labels.filter (fun l => l ≠ -1)).dedup
  let hotspots := cluster_ids.map (make_hotspot labels incidents)
  let sorted := hotspots.insertionSort hotspot_ge
  { hotspots := sorted.take 10
    total_hotspots := hotspots.length
    noise_points := labels.countP (fun l => l == -1) }

/-- `PatternAnalyzer._identify_hotspots` (pattern_analyzer.py lines
244-307) with its insufficient-data guard: `none` models the
`'Insufficient data for hotspot analysis'` error dictionary (all modelled
incidents carry coordinates, so the two `< 10` guards coincide). -/
noncomputable def identify_hotspots (labels : List ℤ)
    (incidents : List Incident) : Option HotspotReport :=
  if incidents.length < 10 then none
  else some (identify_hotspots_core labels incidents)

/-! ## Helper lemmas -/

lemma one_le_time_mult (hour : ℕ) : 1 ≤ get_time_risk_multiplier hour := by
  unfold get_time_risk_multiplier
  split_ifs <;> norm_num

lemma severity_weight_nonneg (s : String) : 0 ≤ severity_weight s := by
  unfold severity_weight
  split_ifs <;> norm_num

lemma le_foldl_max (l : List ℝ) : ∀ a : ℝ, a ≤ l.foldl max a := by
  induction l with
  | nil => intro a; exact le_refl a
  | cons x xs ih =>
    intro a
    exact le_trans (le_max_left a x) (ih (max a x))

lemma foldl_min_nonneg (l : List ℚ) :
    ∀ a : ℚ, 0 ≤ a → (∀ x ∈ l, 0 ≤ x) → 0 ≤ l.foldl min a := by
  induction l with
  | nil => intro a ha _; exact ha
  | cons x xs ih =>
    intro a ha hl
    exact ih (min a x) (le_min ha (hl x (List.mem_cons_self x xs)))
      (fun y hy => hl y (List.mem_cons_of_mem x hy))

lemma calculate_default_risk_bounds (gdist : Coord → Coord → ℚ)
    (s e : Coord) (hour : ℕ) (hd : 0 ≤ gdist s e) :
    0.7 ≤ calculate_default_risk gdist s e hour ∧
    calculate_default_risk gdist s e hour ≤ 1 := by
  simp only [calculate_default_risk]
  have hmin : (0 : ℚ) ≤ min (gdist s e / 100) 0.3 :=
    le_min (by positivity) (by norm_num)
  have hm := one_le_time_mult hour
  constructor
  · exact le_min (by linarith) (by norm_num)
  · exact le_trans (min_le_right _ _) (by norm_num)

lemma predict_route_risk_bounds (gdist : Coord → Coord → ℚ)
    (hg : ∀ a b, 0 ≤ gdist a b) (model_output : Option ℚ)
    (s e : Coord) (hour : ℕ) :
    0 ≤ predict_route_risk gdist model_output s e hour ∧
    predict_route_risk gdist model_output s e hour ≤ 1 := by
  cases model_output with
  | none =>
    have h := calculate_default_risk_bounds gdist s e hour (hg s e)
    exact ⟨le_trans (by norm_num) h.1, h.2⟩
  | some raw =>
    refine ⟨le_max_left 0 _, max_le (by norm_num) (min_le_left 1 raw)⟩

lemma predict_area_risk_bounds (severity_distribution : List (String × ℕ))
    (radius : ℚ) (hour : ℕ) :
    0 ≤ (predict_area_risk severity_distribution radius hour).risk_score ∧
    (predict_area_risk severity_distribution radius hour).risk_score ≤ 1 := by
  simp only [predict_area_risk]
  have hw : (0 : ℚ) ≤
      (severity_distribution.map (fun p => severity_weight p.1 * (p.2 : ℚ))).sum := by
    apply List.sum_nonneg
    intro x hx
    obtain ⟨p, _, rfl⟩ := List.mem_map.1 hx
    exact mul_nonneg (severity_weight_nonneg p.1) (by positivity)
  have harea : (0 : ℚ) ≤ (radius / 1000) ^ 2 * 3.14159 * 30 := by positivity
  have hdens : (0 : ℚ) ≤
      (severity_distribution.map (fun p => severity_weight p.1 * (p.2 : ℚ))).sum /
        ((radius / 1000) ^ 2 * 3.14159 * 30) := div_nonneg hw harea
  have hbase : (0 : ℚ) ≤ min ((severity_distribution.map
      (fun p => severity_weight p.1 * (p.2 : ℚ))).sum /
        ((radius / 1000) ^ 2 * 3.14159 * 30) / 0.1) 1.0 :=
    le_min (by positivity) (by norm_num)
  have hm := one_le_time_mult hour
  constructor
  · exact le_min (mul_nonneg hbase (by linarith)) (by norm_num)
  · exact le_trans (min_le_right _ _) (by norm_num)

/-! ## C2: risk-level step function -/

/-- C2 (counterexample): the claim asserts that score `0.39` yields
`"medium"`; on the code a score of `0.39` falls below the `0.4` threshold
and yields `"low"`, not `"medium"`. -/
theorem C2_counterexample :
    get_risk_level (0.39 : ℚ) = "low" ∧ get_risk_level (0.39 : ℚ) ≠ "medium" := by
  have hlow : get_risk_level (0.39 : ℚ) = "low" := by norm_num [get_risk_level]
  exact ⟨hlow, by rw [hlow]; decide⟩

/-- C2 (amended): the risk-level mapping is the pure step function with
thresholds `0.8 / 0.6 / 0.4`; `0.79` yields `"high"`, `0.80` yields
`"critical"`, and `0.39` — being below the `0.4` boundary — yields
`"low"` (not `"medium"` as the original claim stated). -/
theorem C2_risk_level_step_function (s : ℚ) :
    (0.8 ≤ s → get_risk_level s = "critical") ∧
    (0.6 ≤ s ∧ s < 0.8 → get_risk_level s = "high") ∧
    (0.4 ≤ s ∧ s < 0.6 → get_risk_level s = "medium") ∧
    (s < 0.4 → get_risk_level s = "low") ∧
    get_risk_level (0.79 : ℚ) = "high" ∧
    get_risk_level (0.8 : ℚ) = "critical" ∧
    get_risk_level (0.39 : ℚ) = "low" := by
  refine ⟨?_, ?_, ?_, ?_, by norm_num [get_risk_level], by norm_num [get_risk_level],
    by norm_num [get_risk_level]⟩
  · intro h
    unfold get_risk_level
    rw [if_pos h]
  · rintro ⟨hl, hr⟩
    unfold get_risk_level
    rw [if_neg (not_le.2 hr), if_pos hl]
  · rintro ⟨hl, hr⟩
    unfold get_risk_level
    rw [if_neg (not_le.2 (hr.trans_le (by norm_num))), if_neg (not_le.2 hr), if_pos hl]
  · intro h
    unfold get_risk_level
    rw [if_neg (not_le.2 (h.trans_le (by norm_num))),
      if_neg (not_le.2 (h.trans_le (by norm_num))), if_neg (not_le.2 h)]

/-- C2 witness. -/
theorem C2_risk_level_step_function_witness :
    get_risk_level (0.85 : ℚ) = "critical" :=
  (C2_risk_level_step_function 0.85).1 (by norm_num)

/-! ## C3: untrained route-risk heuristic -/

/-- C3: with no trained regressor, route-risk prediction is total and
returns the deterministic heuristic
`min (0.4 + min (distance/100) 0.3 + 0.3 · mult) 1`, where the time-risk
multiplier is `1.3` during `22:00-5:59`, `1.1` during `6-8` and `17-19`,
and `1.0` otherwise. -/
theorem C3_default_risk_heuristic (gdist : Coord → Coord → ℚ)
    (s e : Coord) (hour : ℕ) :
    predict_route_risk gdist none s e hour =
      min (0.4 + min (gdist s e / 100) 0.3 + 0.3 * get_time_risk_multiplier hour) 1 ∧
    ((22 ≤ hour ∨ hour ≤ 5) → get_time_risk_multiplier hour = 1.3) ∧
    (((6 ≤ hour ∧ hour ≤ 8) ∨ (17 ≤ hour ∧ hour ≤ 19)) →
      get_time_risk_multiplier hour = 1.1) ∧
    (((9 ≤ hour ∧ hour ≤ 16) ∨ (20 ≤ hour ∧ hour ≤ 21)) →
      get_time_risk_multiplier hour = 1.0) := by
  refine ⟨?_, ?_, ?_, ?_⟩
  · show calculate_default_risk gdist s e hour = _
    simp only [calculate_default_risk]
    have harith : min (gdist s e / 100) 0.3 + get_time_risk_multiplier hour * 0.3 + 0.4
        = 0.4 + min (gdist s e / 100) 0.3 + 0.3 * get_time_risk_multiplier hour := by ring
    rw [harith]
    norm_num
  · intro h
    unfold get_time_risk_multiplier
    rw [if_pos h]
  · intro h
    unfold get_time_risk_multiplier
    rw [if_neg (by omega : ¬(22 ≤ hour ∨ hour ≤ 5)), if_pos h]
  · intro h
    unfold get_time_risk_multiplier
    rw [if_neg (by omega : ¬(22 ≤ hour ∨ hour ≤ 5)),
      if_neg (by omega : ¬((6 ≤ hour ∧ hour ≤ 8) ∨ (17 ≤ hour ∧ hour ≤ 19)))]

/-- C3 witness. -/
theorem C3_default_risk_heuristic_witness :
    get_time_risk_multiplier 23 = 1.3 :=
  (C3_default_risk_heuristic (fun _ _ => 0) (0, 0) (0, 0) 23).2.1 (Or.inl (by norm_num))

/-! ## C9: untrained route risk is at least 0.7, hence high or critical -/

/-- C9: with no trained model the heuristic route risk is at least `0.7`
for every input with a nonnegative distance (base `0.4` plus a time term
of at least `0.3`), so the reported level is always `"high"` or
`"critical"`. -/
theorem C9_untrained_route_risk_at_least_high (gdist : Coord → Coord → ℚ)
    (s e : Coord) (hour : ℕ) (hd : 0 ≤ gdist s e) :
    0.7 ≤ predict_route_risk gdist none s e hour ∧
    (get_risk_level (predict_route_risk gdist none s e hour) = "high" ∨
     get_risk_level (predict_route_risk gdist none s e hour) = "critical") := by
  have hb := calculate_default_risk_bounds gdist s e hour hd
  have h7 : 0.7 ≤ predict_route_risk gdist none s e hour := hb.1
  refine ⟨h7, ?_⟩
  rcases le_or_lt 0.8 (predict_route_risk gdist none s e hour) with hcrit | hlt
  · right
    unfold get_risk_level
    rw [if_pos hcrit]
  · left
    unfold get_risk_level
    rw [if_neg (not_le.2 hlt), if_pos (by linarith : (0.6 : ℚ) ≤ predict_route_risk gdist none s e hour)]

/-- C9 witness. -/
theorem C9_untrained_route_risk_at_least_high_witness :
    0.7 ≤ predict_route_risk (fun _ _ => 0) none (0, 0) (0, 0) 12 :=
  (C9_untrained_route_risk_at_least_high (fun _ _ => 0) (0, 0) (0, 0) 12 (le_refl 0)).1

lemma detect_speed_anomaly_few (current_speed : ℚ)
    (hist : List LocationSample) (em : Bool)
    (hlen : (historical_speeds_kmh hist).length < 20) :
    detect_speed_anomaly current_speed hist em =
      detect_general_speed_anomaly current_speed em := by
  simp only [detect_speed_anomaly]
  rw [if_pos hlen]

/-! ## C4: fixed-threshold speed-anomaly fallback -/

/-- C4: with fewer than 20 historical speed samples the fixed-threshold
fallback applies: above 200 km/h the result is anomalous with confidence
`0.9` (in particular at exactly 250 km/h), above 120 km/h anomalous with
confidence `0.7`, below 1 km/h with the expected-movement flag anomalous
with confidence `0.6`, and otherwise not anomalous. -/
theorem C4_speed_fallback_thresholds (current_speed : ℚ)
    (hist : List LocationSample) (em : Bool)
    (hlen : (historical_speeds_kmh hist).length < 20) :
    (200 < current_speed * 3.6 →
      (detect_speed_anomaly current_speed hist em).is_anomaly = true ∧
      (detect_speed_anomaly current_speed hist em).confidence = 0.9) ∧
    (120 < current_speed * 3.6 → current_speed * 3.6 ≤ 200 →
      (detect_speed_anomaly current_speed hist em).is_anomaly = true ∧
      (detect_speed_anomaly current_speed hist em).confidence = 0.7) ∧
    (current_speed * 3.6 < 1 → em = true →
      (detect_speed_anomaly current_speed hist em).is_anomaly = true ∧
      (detect_speed_anomaly current_speed hist em).confidence = 0.6) ∧
    (current_speed * 3.6 ≤ 120 → ¬(current_speed * 3.6 < 1 ∧ em = true) →
      (detect_speed_anomaly current_speed hist em).is_anomaly = false ∧
      (detect_speed_anomaly current_speed hist em).confidence = 0) ∧
    (current_speed = 250 / 3.6 →
      (detect_speed_anomaly current_speed hist em).is_anomaly = true ∧
      (detect_speed_anomaly current_speed hist em).confidence = 0.9) := by
  rw [detect_speed_anomaly_few current_speed hist em hlen]
  simp only [detect_general_speed_anomaly]
  refine ⟨?_, ?_, ?_, ?_, ?_⟩
  · intro h
    rw [if_pos h]
    exact ⟨rfl, rfl⟩
  · intro h1 h2
    rw [if_neg (by linarith : ¬(200 < current_speed * 3.6)), if_pos h1]
    exact ⟨rfl, rfl⟩
  · intro h1 h2
    rw [if_neg (by linarith : ¬(200 < current_speed * 3.6)),
      if_neg (by linarith : ¬(120 < current_speed * 3.6)), if_pos ⟨h1, h2⟩]
    exact ⟨rfl, rfl⟩
  · intro h1 h2
    rw [if_neg (by linarith : ¬(200 < current_speed * 3.6)),
      if_neg (by linarith : ¬(120 < current_speed * 3.6)), if_neg h2]
    exact ⟨rfl, by norm_num⟩
  · intro h
    have h200 : 200 < current_speed * 3.6 := by rw [h]; norm_num
    rw [if_pos h200]
    exact ⟨rfl, rfl⟩

/-- C4 witness: 250 km/h (`250/3.6` m/s) with no historical samples. -/
theorem C4_speed_fallback_thresholds_witness :
    (detect_speed_anomaly (250 / 3.6) [] false).is_anomaly = true ∧
    (detect_speed_anomaly (250 / 3.6) [] false).confidence = 0.9 :=
  (C4_speed_fallback_thresholds (250 / 3.6) [] false (by decide)).2.2.2.2 rfl

/-! ## C5: movement anomaly never fails on insufficient data -/

/-- C5: with fewer than 3 current samples, or with at least 3 current
samples but fewer than 10 historical samples, the movement-anomaly test
returns the structurally valid conservative result `is_anomaly = false`,
`confidence = 0`, with a non-empty explanatory reason (no exception
reaches the caller: the modelled function is total). -/
theorem C5_movement_insufficient_data (gdist : Coord → Coord → ℚ) (now : ℚ)
    (locations historical_patterns : List LocationSample) :
    (locations.length < 3 →
      detect_movement_anomaly gdist now locations historical_patterns =
        { is_anomaly := false, confidence := 0.0,
          reason := "Insufficient location data" } ∧
      (detect_movement_anomaly gdist now locations historical_patterns).reason ≠ "") ∧
    (3 ≤ locations.length → historical_patterns.length < 10 →
      detect_movement_anomaly gdist now locations historical_patterns =
        { is_anomaly := false, confidence := 0.0,
          reason := "Insufficient historical data" } ∧
      (detect_movement_anomaly gdist now locations historical_patterns).reason ≠ "") := by
  constructor
  · intro h
    have he : detect_movement_anomaly gdist now locations historical_patterns =
        { is_anomaly := false, confidence := 0.0,
          reason := "Insufficient location data" } := by
      simp only [detect_movement_anomaly]
      rw [if_pos h]
    exact ⟨he, by rw [he]; decide⟩
  · intro h3 h10
    have he : detect_movement_anomaly gdist now locations historical_patterns =
        { is_anomaly := false, confidence := 0.0,
          reason := "Insufficient historical data" } := by
      simp only [detect_movement_anomaly]
      rw [if_neg (not_lt.2 h3), if_pos h10]
    exact ⟨he, by rw [he]; decide⟩

/-- C5 witness. -/
theorem C5_movement_insufficient_data_witness :
    detect_movement_anomaly (fun _ _ => 0) 0 [] [] =
      { is_anomaly := false, confidence := 0.0,
        reason := "Insufficient location data" } :=
  ((C5_movement_insufficient_data (fun _ _ => 0) 0 [] []).1 (by decide)).1

/-! ## C10: the hidden five-window precondition -/

/-- C10: even with at least 3 current samples and at least 10 historical
samples, if the non-overlapping windowing of the historical samples yields
fewer than 5 windows (hence fewer than 5 window feature vectors), the
movement-anomaly test still returns the conservative
`Insufficient historical patterns` result. -/
theorem C10_insufficient_historical_patterns (gdist : Coord → Coord → ℚ)
    (now : ℚ) (locations historical_patterns : List LocationSample)
    (h3 : 3 ≤ locations.length) (h10 : 10 ≤ historical_patterns.length)
    (hw : (historical_windows historical_patterns locations.length).length < 5) :
    detect_movement_anomaly gdist now locations historical_patterns =
      { is_anomaly := false, confidence := 0.0,
        reason := "Insufficient historical patterns" } := by
  simp only [detect_movement_anomaly]
  rw [if_neg (not_lt.2 h3), if_neg (not_lt.2 h10),
    if_pos (show ((historical_windows historical_patterns locations.length).map
      (extract_movement_features gdist now)).length < 5 by
        rw [List.length_map]; exact hw)]

/-- C10 witness: 3 current samples and 10 historical samples give only
`⌊(10-3)/3⌋ + 1 = 3` windows, below the threshold of 5. -/
theorem C10_insufficient_historical_patterns_witness :
    detect_movement_anomaly (fun _ _ => 0) 0
      (List.replicate 3 ⟨0, 0, some 0, none⟩)
      (List.replicate 10 ⟨0, 0, some 0, none⟩) =
      { is_anomaly := false, confidence := 0.0,
        reason := "Insufficient historical patterns" } :=
  C10_insufficient_historical_patterns (fun _ _ => 0) 0 _ _
    (by decide) (by decide) (by decide)

/-! ## C6: 7-day forecast -/

/-- C6 (counterexample): the forecast for day `i` is not
`max 0 (last_count + slope·i)` — the code truncates to an integer first.
For daily counts `[0,0,0,0,0,0,1]` the slope is `3/28` and the claimed
day-1 value is `31/28`, but the code returns `int(31/28) = 1`. -/
theorem C6_counterexample :
    (generate_predictions [0, 0, 0, 0, 0, 0, 1]).map Forecast.next_7_days =
      some [1, 1, 1, 1, 1, 1, 1] ∧
    linear_slope [0, 0, 0, 0, 0, 0, 1] = 3 / 28 ∧
    max (0 : ℚ) (1 + linear_slope [0, 0, 0, 0, 0, 0, 1] * 1) = 31 / 28 ∧
    (31 / 28 : ℚ) ≠ (1 : ℚ) := by
  have hs : linear_slope [0, 0, 0, 0, 0, 0, 1] = 3 / 28 := by
    have h : List.range ([0, 0, 0, 0, 0, 0, 1] : List ℚ).length
        = [0, 1, 2, 3, 4, 5, 6] := by rfl
    simp only [linear_slope, h]
    norm_num [List.zip_cons_cons]
  have hr : List.range 7 = [0, 1, 2, 3, 4, 5, 6] := by rfl
  refine ⟨?_, hs, by rw [hs]; norm_num [max_def], by norm_num⟩
  simp only [generate_predictions, hs, hr]
  norm_num [trunc_int, max_def]

/-- C6 (amended): the forecast projects day `i` as
`max 0 (int (last_count + slope·i))` — the claimed formula with the
value truncated to an integer; the claimed consequence still holds: for
the strictly increasing counts `1..14` the slope is exactly `1`, the
trend direction is `"increasing"`, and all seven forecast values exceed
the last historical count `14`. -/
theorem C6_forecast_with_truncation (counts : List ℚ) (h7 : 7 ≤ counts.length) :
    (generate_predictions counts).map Forecast.next_7_days =
      some ((List.range 7).map (fun i =>
        max 0 (trunc_int (counts.getLastD 0 + linear_slope counts * ((i : ℚ) + 1))))) ∧
    (counts = [1, 2, 3, 4, 5, 6, 7, 8, 9, 10, 11, 12, 13, 14] →
      (generate_predictions counts).map Forecast.trend_direction = some "increasing" ∧
      ∀ p ∈ ((generate_predictions counts).map Forecast.next_7_days).getD [],
        (14 : ℤ) < p) := by
  constructor
  · simp only [generate_predictions]
    rw [if_neg (not_lt.2 h7)]
    rfl
  · rintro rfl
    have hs : linear_slope [1, 2, 3, 4, 5, 6, 7, 8, 9, 10, 11, 12, 13, 14] = 1 := by
      have h : List.range ([1, 2, 3, 4, 5, 6, 7, 8, 9, 10, 11, 12, 13, 14] : List ℚ).length
          = [0, 1, 2, 3, 4, 5, 6, 7, 8, 9, 10, 11, 12, 13] := by rfl
      simp only [linear_slope, h]
      norm_num [List.zip_cons_cons]
    have hr : List.range 7 = [0, 1, 2, 3, 4, 5, 6] := by rfl
    have hlist : (generate_predictions
        [1, 2, 3, 4, 5, 6, 7, 8, 9, 10, 11, 12, 13, 14]).map Forecast.next_7_days =
        some [15, 16, 17, 18, 19, 20, 21] := by
      simp only [generate_predictions, hs, hr]
      norm_num [trunc_int, max_def]
    constructor
    · simp only [generate_predictions, hs]
      norm_num
    · rw [hlist]
      intro p hp
      simp only [Option.getD_some] at hp
      fin_cases hp <;> norm_num

/-- C6 witness. -/
theorem C6_forecast_with_truncation_witness :
    (generate_predictions [1, 2, 3, 4, 5, 6, 7, 8, 9, 10, 11, 12, 13, 14]).map
      Forecast.trend_direction = some "increasing" :=
  ((C6_forecast_with_truncation [1, 2, 3, 4, 5, 6, 7, 8, 9, 10, 11, 12, 13, 14]
    (by decide)).2 rfl).1

/-! ## C8: hotspot report shape -/

/-- C8: for every labelling and incident set, the hotspot report contains
no noise-labelled cluster, is sorted in descending order of `risk_score`,
has at most 10 entries, and reports the noise points separately as a
count; the guarded entry point returns either the insufficient-data error
or exactly this report. -/
theorem C8_hotspot_report (labels : List ℤ) (incidents : List Incident) :
    (identify_hotspots_core labels incidents).hotspots.length ≤ 10 ∧
    List.Sorted hotspot_ge (identify_hotspots_core labels incidents).hotspots ∧
    (∀ h ∈ (identify_hotspots_core labels incidents).hotspots, h.cluster_id ≠ -1) ∧
    (identify_hotspots_core labels incidents).noise_points =
      labels.countP (fun l => l == -1) ∧
    (identify_hotspots labels incidents = none ∨
      identify_hotspots labels incidents = some (identify_hotspots_core labels incidents)) := by
  refine ⟨?_, ?_, ?_, rfl, ?_⟩
  · simp only [identify_hotspots_core]
    simp [List.length_take]
  · simp only [identify_hotspots_core]
    exact List.Pairwise.sublist (List.take_sublist _ _)
      (List.sorted_insertionSort hotspot_ge _)
  · intro h hh
    simp only [identify_hotspots_core] at hh
    have h1 := List.mem_of_mem_take hh
    have h2 := (List.perm_insertionSort hotspot_ge _).mem_iff.1 h1
    obtain ⟨cid, hcid, rfl⟩ := List.mem_map.1 h2
    have h3 : cid ∈ labels.filter (fun l => l ≠ -1) := List.mem_dedup.1 hcid
    have h4 : cid ≠ -1 := of_decide_eq_true (List.mem_filter.1 h3).2
    simpa only [make_hotspot] using h4
  · unfold identify_hotspots
    split_ifs
    · exact Or.inl rfl
    · exact Or.inr rfl

/-- C8 witness. -/
theorem C8_hotspot_report_witness :
    (identify_hotspots_core [-1, -1] []).hotspots.length ≤ 10 :=
  (C8_hotspot_report [-1, -1] []).1

lemma mem_consecutive_pairs {locations : List LocationSample}
    {p : LocationSample × LocationSample} (hp : p ∈ consecutive_pairs locations) :
    p.1 ∈ locations ∧ p.2 ∈ locations := by
  unfold consecutive_pairs at hp
  have hp2 : (p.1, p.2) ∈ locations.zip locations.tail := by
    simpa using hp
  obtain ⟨h1, h2⟩ := List.of_mem_zip hp2
  exact ⟨h1, List.mem_of_mem_tail h2⟩

lemma pair_time_diff_congr (now1 now2 : ℚ) (p : LocationSample × LocationSample)
    (h1 : p.1.createdAt.isSome = true) (h2 : p.2.createdAt.isSome = true) :
    pair_time_diff now1 p = pair_time_diff now2 p := by
  unfold pair_time_diff
  obtain ⟨a, ha⟩ := Option.isSome_iff_exists.1 h1
  obtain ⟨b, hb⟩ := Option.isSome_iff_exists.1 h2
  rw [ha, hb]
  rfl

/-! ## C7: movement feature extraction is pure -/

/-- C7: movement feature extraction depends only on the sample sequence.
The only ambient state the source touches is `datetime.utcnow()`, used as
the default for a missing `createdAt`; on sequences of well-formed
location samples (every sample carries a timestamp, as the data model
requires) two calls at different wall-clock instants `now1`, `now2`
return identical feature maps, so identical input always yields identical
output. -/
theorem C7_feature_extraction_pure (gdist : Coord → Coord → ℚ)
    (now1 now2 : ℚ) (locations : List LocationSample)
    (h : ∀ l ∈ locations, l.createdAt.isSome = true) :
    extract_movement_features gdist now1 locations =
      extract_movement_features gdist now2 locations := by
  have hpair : ∀ p ∈ consecutive_pairs locations,
      pair_time_diff now1 p = pair_time_diff now2 p := by
    intro p hp
    obtain ⟨hp1, hp2⟩ := mem_consecutive_pairs hp
    exact pair_time_diff_congr now1 now2 p (h _ hp1) (h _ hp2)
  have hti : (consecutive_pairs locations).map (pair_time_diff now1)
      = (consecutive_pairs locations).map (pair_time_diff now2) :=
    List.map_congr_left hpair
  have hsp : (consecutive_pairs locations).filterMap (fun p =>
        let time_diff := pair_time_diff now1 p
        if 0 < time_diff then some (pair_distance gdist p * 1000 / time_diff)
        else none)
      = (consecutive_pairs locations).filterMap (fun p =>
        let time_diff := pair_time_diff now2 p
        if 0 < time_diff then some (pair_distance gdist p * 1000 / time_diff)
        else none) := by
    apply List.filterMap_congr
    intro p hp
    simp only [hpair p hp]
  by_cases hlen : locations.length < 2
  · simp only [extract_movement_features]
    rw [if_pos hlen, if_pos hlen]
  · simp only [extract_movement_features]
    rw [if_neg hlen, if_neg hlen, hti, hsp]

/-- C7 witness: two samples with timestamps, evaluated at two different
wall-clock instants. -/
theorem C7_feature_extraction_pure_witness :
    extract_movement_features (fun _ _ => 1) 17
        [⟨0, 0, some 0, none⟩, ⟨1, 1, some 60, none⟩] =
      extract_movement_features (fun _ _ => 1) 42
        [⟨0, 0, some 0, none⟩, ⟨1, 1, some 60, none⟩] :=
  C7_feature_extraction_pure (fun _ _ => 1) 17 42
    [⟨0, 0, some 0, none⟩, ⟨1, 1, some 60, none⟩] (by decide)

lemma feature_z_scores_nonneg (c : MovementFeatures)
    (hist : List MovementFeatures) :
    ∀ p ∈ feature_z_scores c hist, 0 ≤ p.2 := by
  intro p hp
  simp only [feature_z_scores, List.mem_filterMap] at hp
  obtain ⟨fp, _, heq⟩ := hp
  split_ifs at heq with h1 h2
  obtain rfl := Option.some.inj heq
  exact div_nonneg (abs_nonneg _) (le_of_lt h2)

lemma calculate_movement_anomaly_score_bounds (cf : Option MovementFeatures)
    (hf : List (Option MovementFeatures)) :
    0 ≤ calculate_movement_anomaly_score cf hf ∧
    calculate_movement_anomaly_score cf hf ≤ 1 := by
  unfold calculate_movement_anomaly_score
  rcases hf with _ | ⟨h0, rest⟩
  · exact ⟨le_refl 0, zero_le_one⟩
  · rcases cf with _ | c
    · exact ⟨le_refl 0, zero_le_one⟩
    · rcases h0 with _ | f0
      · exact ⟨le_refl 0, zero_le_one⟩
      · dsimp only
        rcases hzs : (feature_z_scores c ((some f0 :: rest).filterMap id)).map (·.2)
            with _ | ⟨z, zrest⟩
        · rw [hzs]
          exact ⟨le_refl 0, zero_le_one⟩
        · rw [hzs]
          have hz : 0 ≤ z := by
            have hzmem : z ∈ (feature_z_scores c
                ((some f0 :: rest).filterMap id)).map (·.2) := by
              rw [hzs]; exact List.mem_cons_self z zrest
            obtain ⟨p, hp, hpz⟩ := List.mem_map.1 hzmem
            rw [← hpz]
            exact feature_z_scores_nonneg c _ p hp
          have hfold : z ≤ zrest.foldl max z := le_foldl_max zrest z
          exact ⟨le_min (by linarith) zero_le_one, min_le_right _ _⟩

lemma detect_movement_anomaly_conf_bounds (gdist : Coord → Coord → ℚ)
    (now : ℚ) (locations historical_patterns : List LocationSample) :
    0 ≤ (detect_movement_anomaly gdist now locations historical_patterns).confidence ∧
    (detect_movement_anomaly gdist now locations historical_patterns).confidence ≤ 1 := by
  simp only [detect_movement_anomaly]
  split_ifs <;> first
    | exact calculate_movement_anomaly_score_bounds _ _
    | (constructor <;> norm_num)

lemma detect_general_speed_anomaly_conf_bounds (current_speed : ℚ) (em : Bool) :
    0 ≤ (detect_general_speed_anomaly current_speed em).confidence ∧
    (detect_general_speed_anomaly current_speed em).confidence ≤ 1 := by
  simp only [detect_general_speed_anomaly]
  split_ifs <;> constructor <;> norm_num

lemma detect_speed_anomaly_conf_bounds (current_speed : ℚ)
    (hist : List LocationSample) (em : Bool) :
    0 ≤ (detect_speed_anomaly current_speed hist em).confidence ∧
    (detect_speed_anomaly current_speed hist em).confidence ≤ 1 := by
  by_cases hl : (historical_speeds_kmh hist).length < 20
  · rw [detect_speed_anomaly_few current_speed hist em hl]
    exact detect_general_speed_anomaly_conf_bounds current_speed em
  · simp only [detect_speed_anomaly]
    rw [if_neg hl]
    split_ifs <;> first
      | exact ⟨le_min (div_nonneg (div_nonneg (abs_nonneg _) (Real.sqrt_nonneg _))
          (by norm_num)) zero_le_one, min_le_right _ _⟩
      | (constructor <;> norm_num [min_def])

lemma detect_location_deviation_conf_bounds (gdist : Coord → Coord → ℚ)
    (hg : ∀ a b, 0 ≤ gdist a b) (common_routes : List CommonRoute)
    (current_location : Coord) :
    0 ≤ (detect_location_deviation gdist common_routes current_location).confidence ∧
    (detect_location_deviation gdist common_routes current_location).confidence ≤ 1 := by
  rcases common_routes with _ | ⟨r, rs⟩
  · simp only [detect_location_deviation]
    constructor <;> norm_num
  · simp only [detect_location_deviation, List.map_cons]
    have hmd : 0 ≤ (rs.map (fun route =>
        gdist current_location (route.start_lat, route.start_lng))).foldl min
          (gdist current_location (r.start_lat, r.start_lng)) := by
      apply foldl_min_nonneg
      · exact hg _ _
      · intro x hx
        obtain ⟨route, _, rfl⟩ := List.mem_map.1 hx
        exact hg _ _
    constructor
    · exact le_min (div_nonneg hmd (by norm_num)) (by norm_num)
    · exact le_trans (min_le_right _ _) (by norm_num)

lemma detect_time_pattern_anomaly_conf_bounds (gdist : Coord → Coord → ℚ)
    (hg : ∀ a b, 0 ≤ gdist a b) (now current_time : ℚ)
    (current_location : Coord) (historical_locations : List LocationSample) :
    0 ≤ (detect_time_pattern_anomaly gdist now current_time current_location
      historical_locations).confidence ∧
    (detect_time_pattern_anomaly gdist now current_time current_location
      historical_locations).confidence ≤ 1 := by
  simp only [detect_time_pattern_anomaly]
  split_ifs <;> first
    | exact ⟨le_min (div_nonneg (div_nonneg
        (Rat.cast_nonneg.2 (hg _ _)) (Real.sqrt_nonneg _))
        (by norm_num)) zero_le_one, min_le_right _ _⟩
    | (constructor <;> norm_num [min_def])

lemma round_half_even_ge_floor (q : ℚ) : ⌊q⌋ ≤ round_half_even q := by
  simp only [round_half_even]
  split_ifs <;> omega

lemma round_half_even_le_of_le (q : ℚ) (n : ℤ) (h : q ≤ n) :
    round_half_even q ≤ n := by
  have hfl : ⌊q⌋ ≤ n := by
    have := Int.floor_le_floor h
    rwa [Int.floor_intCast] at this
  simp only [round_half_even]
  split_ifs with a b c
  · exact hfl
  · have hlt : (⌊q⌋ : ℚ) < (n : ℚ) := by linarith
    have : ⌊q⌋ < n := by exact_mod_cast hlt
    omega
  · exact hfl
  · have hlt : (⌊q⌋ : ℚ) < (n : ℚ) := by linarith
    have : ⌊q⌋ < n := by exact_mod_cast hlt
    omega

lemma round2_bounds (q : ℚ) (h0 : 0 ≤ q) (h1 : q ≤ 1) :
    0 ≤ round2 q ∧ round2 q ≤ 1 := by
  unfold round2
  have hge : (0 : ℤ) ≤ round_half_even (q * 100) :=
    le_trans (Int.floor_nonneg.2 (by positivity)) (round_half_even_ge_floor _)
  have hle : round_half_even (q * 100) ≤ 100 :=
    round_half_even_le_of_le (q * 100) 100 (by push_cast; linarith)
  constructor
  · positivity
  · rw [div_le_one (by norm_num : (0 : ℚ) < 100)]
    exact_mod_cast hle

lemma forecast_confidence_bounds (counts : List ℚ) :
    0 ≤ forecast_confidence counts ∧ forecast_confidence counts ≤ 1 := by
  simp only [forecast_confidence]
  exact round2_bounds _ (le_max_left _ _) (max_le zero_le_one (min_le_left _ _))

/-! ## C1: confidence and risk scores stay in the unit interval -/

/-- C1: for every public scoring operation — route-risk prediction,
area-risk prediction, movement / speed / route-deviation / time-of-day
anomaly detection, and trend forecasting — and every input, the returned
confidence lies in `[0, 1]` and every returned risk score lies in
`[0, 1]` (the external geodesic distance is assumed nonnegative, as
physical distances are). -/
theorem C1_confidence_and_risk_in_unit_interval
    (gdist : Coord → Coord → ℚ) (hg : ∀ a b, 0 ≤ gdist a b) :
    (∀ model_output s e hour,
      0 ≤ predict_route_risk gdist model_output s e hour ∧
      predict_route_risk gdist model_output s e hour ≤ 1) ∧
    (∀ severity_distribution radius hour,
      0 ≤ (predict_area_risk severity_distribution radius hour).risk_score ∧
      (predict_area_risk severity_distribution radius hour).risk_score ≤ 1) ∧
    (∀ now locations historical_patterns,
      0 ≤ (detect_movement_anomaly gdist now locations historical_patterns).confidence ∧
      (detect_movement_anomaly gdist now locations historical_patterns).confidence ≤ 1) ∧
    (∀ current_speed historical_locations em,
      0 ≤ (detect_speed_anomaly current_speed historical_locations em).confidence ∧
      (detect_speed_anomaly current_speed historical_locations em).confidence ≤ 1) ∧
    (∀ common_routes current_location,
      0 ≤ (detect_location_deviation gdist common_routes current_location).confidence ∧
      (detect_location_deviation gdist common_routes current_location).confidence ≤ 1) ∧
    (∀ now current_time current_location historical_locations,
      0 ≤ (detect_time_pattern_anomaly gdist now current_time current_location
        historical_locations).confidence ∧
      (detect_time_pattern_anomaly gdist now current_time current_location
        historical_locations).confidence ≤ 1) ∧
    (∀ counts, 0 ≤ forecast_confidence counts ∧ forecast_confidence counts ≤ 1) := by
  refine ⟨?_, ?_, ?_, ?_, ?_, ?_, ?_⟩
  · intro model_output s e hour
    exact predict_route_risk_bounds gdist hg model_output s e hour
  · intro sd radius hour
    exact predict_area_risk_bounds sd radius hour
  · intro now locs hist
    exact detect_movement_anomaly_conf_bounds gdist now locs hist
  · intro sp hist em
    exact detect_speed_anomaly_conf_bounds sp hist em
  · intro routes cur
    exact detect_location_deviation_conf_bounds gdist hg routes cur
  · intro now t cur hist
    exact detect_time_pattern_anomaly_conf_bounds gdist hg now t cur hist
  · intro counts
    exact forecast_confidence_bounds counts

/-- C1 witness. -/
theorem C1_confidence_and_risk_in_unit_interval_witness :
    0 ≤ predict_route_risk (fun _ _ => 0) none (0, 0) (0, 0) 12 ∧
    predict_route_risk (fun _ _ => 0) none (0, 0) (0, 0) 12 ≤ 1 :=
  (C1_confidence_and_risk_in_unit_interval (fun _ _ => 0)
    (fun _ _ => le_refl 0)).1 none (0, 0) (0, 0) 12

end SurakshaAI
